import Mathlib

/-!
Verification of the event-scraper reconciliation and resilience engine.

The definitions below are shallow embeddings of the TypeScript source:

* `RetryConfig`, `getDefaultRetryConfig`, `retryLoop`, `executeWithRetry`
  embed `executeWithRetry` from `src/utils/shared.ts` (the same logic is
  inlined as `Scraper.executeWithRetry` in `src/services/scraper/index.ts`).
  Asynchronous operations are modelled as a function from the attempt number
  to an `Except` result; wall-clock reads (`Date.now()`) are modelled by an
  explicit `now` argument for the entry check and a `failClock` function for
  the per-failure timestamps.  The observable behaviour of one call is a
  `RetryRun`: the outcome, the final configuration value, the list of attempt
  numbers at which the wrapped operation was invoked, and the list of delays
  (in ms) that were awaited, in order.

* `levenshteinDistance`, `normalizeArtistName`, `calculateSimilarityScore`
  embed the private helpers of `DbService` in `src/services/ai.ts`.  JS
  floating-point division is modelled over `ℚ`.

* `Store`, `checkForDuplicatesAndConflicts`, `processAndCreateEvents` (and
  their helpers) embed `DbService` from `src/services/ai.ts` over an explicit
  store state standing for the Prisma database.  Luxon date handling is
  abstracted as a `DateLib` (instants are `Int` milliseconds); the uniqueness
  constraint on `(venueId, startDate)` that makes `prisma.event.create` raise
  `PrismaClientKnownRequestError` is not under `src/` (it lives in the Prisma
  schema); it is modelled from the spec, which says `createEvent` fails with
  `DuplicateKeyError` on a uniqueness violation.

* `convertToTimeZone` and `timeFormats` embed `convertToTimeZone` from
  `src/utils/shared.ts`, with the Luxon parsing primitives abstracted as a
  `LuxonApi`.
-/

/-! ## Retry with circuit breaker (`src/utils/shared.ts`) -/

/-- Embedding of the `RetryConfig` interface of `src/utils/shared.ts`.
Timestamps and the breaker timeout are `Int` milliseconds; counters are
`Nat`. -/
structure RetryConfig where
  maxRetries : Nat
  retryDelay : Nat
  circuitBreakerThreshold : Nat
  circuitBreakerTimeout : Int
  circuitOpen : Bool
  lastFailureTime : Int
  failureCount : Nat
deriving Repr, DecidableEq

/-- Embedding of `getDefaultRetryConfig` of `src/utils/shared.ts`. -/
def getDefaultRetryConfig : RetryConfig :=
  { maxRetries := 3
    retryDelay := 1000
    circuitBreakerThreshold := 5
    circuitBreakerTimeout := 60000
    circuitOpen := false
    lastFailureTime := 0
    failureCount := 0 }

/-- The ways one call to `executeWithRetry` can end: a value, the fast-fail
"Circuit breaker is open" error thrown at entry, the "Circuit breaker opened"
error thrown when a failure pushes the counter to the threshold, or the
rethrow of the last error after the retry loop is exhausted. -/
inductive RetryOutcome (ε α : Type) where
  | ok (a : α)
  | circuitOpenFastFail
  | circuitOpened
  | exhausted (lastError : Option ε)
deriving Repr, DecidableEq

/-- Observable behaviour of one call to `executeWithRetry`: outcome, final
configuration, attempt numbers at which the operation was invoked, and the
awaited backoff delays, each in order. -/
structure RetryRun (ε α : Type) where
  outcome : RetryOutcome ε α
  config : RetryConfig
  invoked : List Nat
  waits : List Nat
deriving Repr, DecidableEq

/-- Embedding of the `for (let attempt = 1; attempt <= maxRetries; ...)` loop
of `executeWithRetry` (`src/utils/shared.ts`).  `remaining` is the number of
loop iterations left (`maxRetries - attempt + 1` at entry); `fn attempt` is
the result of invoking the wrapped operation on that attempt; `failClock
attempt` is the value of `Date.now()` recorded when that attempt fails. -/
def retryLoop (fn : Nat → Except ε α) (failClock : Nat → Int) :
    RetryConfig → Nat → Nat → Option ε → RetryRun ε α
  | cfg, _attempt, 0, lastErr => ⟨.exhausted lastErr, cfg, [], []⟩
  | cfg, attempt, remaining + 1, _lastErr =>
    match fn attempt with
    | .ok v => ⟨.ok v, { cfg with failureCount := 0 }, [attempt], []⟩
    | .error e =>
      let cfg' := { cfg with
        failureCount := cfg.failureCount + 1
        lastFailureTime := failClock attempt }
      if cfg'.circuitBreakerThreshold ≤ cfg'.failureCount then
        ⟨.circuitOpened, { cfg' with circuitOpen := true }, [attempt], []⟩
      else
        let delay := cfg'.retryDelay * 2 ^ (attempt - 1)
        let rest := retryLoop fn failClock cfg' (attempt + 1) remaining (some e)
        ⟨rest.outcome, rest.config, attempt :: rest.invoked, delay :: rest.waits⟩

/-- Embedding of `executeWithRetry` (`src/utils/shared.ts`).  `config?` is the
optional third argument; when absent a fresh `getDefaultRetryConfig` is used
(and, being a local value, discarded with the returned `RetryRun`).  `now` is
the `Date.now()` read in the circuit-open entry check. -/
def executeWithRetry (fn : Nat → Except ε α) (now : Int) (failClock : Nat → Int)
    (config? : Option RetryConfig) : RetryRun ε α :=
  let config := config?.getD getDefaultRetryConfig
  if config.circuitOpen then
    if now - config.lastFailureTime < config.circuitBreakerTimeout then
      ⟨.circuitOpenFastFail, config, [], []⟩
    else
      let config' := { config with circuitOpen := false, failureCount := 0 }
      retryLoop fn failClock config' 1 config'.maxRetries none
  else
    retryLoop fn failClock config 1 config.maxRetries none

/-! ### C4: behaviour of a call arriving while the circuit is open -/

/-- Claim C4: a call to the resilient executor made while the circuit is open
fails immediately with the circuit-open error, without invoking the wrapped
operation, when less than `circuitBreakerTimeout` ms have elapsed since the
last recorded failure; when at least that much time has elapsed, the breaker
resets its failure counter to 0 and closes the circuit before the retry loop
(and hence the operation) is attempted. -/
theorem executeWithRetry_circuitOpen_behavior
    {ε α : Type} (fn : Nat → Except ε α) (now : Int) (failClock : Nat → Int)
    (cfg : RetryConfig) (hOpen : cfg.circuitOpen = true) :
    (now - cfg.lastFailureTime < cfg.circuitBreakerTimeout →
      executeWithRetry fn now failClock (some cfg) =
        ⟨.circuitOpenFastFail, cfg, [], []⟩) ∧
    (¬ now - cfg.lastFailureTime < cfg.circuitBreakerTimeout →
      executeWithRetry fn now failClock (some cfg) =
        retryLoop fn failClock
          { cfg with circuitOpen := false, failureCount := 0 }
          1 cfg.maxRetries none) := by
  constructor
  · intro hlt
    simp [executeWithRetry, hOpen, hlt]
  · intro hge
    simp [executeWithRetry, hOpen, hge]

/-- Witness for C4 at a concrete configuration: with the circuit open, last
failure at time 0 and timeout 60000, a call at `now = 1000` fast-fails with
no invocation of the operation, and a call at `now = 60000` runs the loop
from a reset (closed, zero-failure) configuration. -/
theorem executeWithRetry_circuitOpen_behavior_witness :
    (executeWithRetry (fun _ => (Except.ok 0 : Except Unit Nat)) 1000 (fun _ => 0)
        (some { getDefaultRetryConfig with circuitOpen := true }) =
      ⟨.circuitOpenFastFail, { getDefaultRetryConfig with circuitOpen := true },
        [], []⟩) ∧
    (executeWithRetry (fun _ => (Except.ok 0 : Except Unit Nat)) 60000 (fun _ => 0)
        (some { getDefaultRetryConfig with circuitOpen := true }) =
      retryLoop (fun _ => (Except.ok 0 : Except Unit Nat)) (fun _ => 0)
        ({ getDefaultRetryConfig with circuitOpen := false, failureCount := 0 })
        1 3 none) := by
  constructor
  · exact (executeWithRetry_circuitOpen_behavior (fun _ => (Except.ok 0 : Except Unit Nat)) 1000
      (fun _ => 0) { getDefaultRetryConfig with circuitOpen := true } rfl).1
      (by decide)
  · exact (executeWithRetry_circuitOpen_behavior (fun _ => (Except.ok 0 : Except Unit Nat)) 60000
      (fun _ => 0) { getDefaultRetryConfig with circuitOpen := true } rfl).2
      (by decide)

/-! ### C2: backoff between retries and the mid-loop threshold check -/

/-- Claim C2 as amended: while the circuit is closed, a failing attempt is
followed by a wait of `retryDelay * 2 ^ (attempt - 1)` and a retry only when
the incremented failure counter is still below the circuit-breaker threshold;
when the failure raises the counter to the threshold, the call fails
immediately with the circuit-opened error — no wait is performed and no
further attempt is invoked.  The threshold condition is therefore checked
after every failure inside the loop, not only at the start of `execute`. -/
theorem retryLoop_failure_step
    {ε α : Type} (fn : Nat → Except ε α) (failClock : Nat → Int)
    (cfg : RetryConfig) (attempt remaining : Nat) (lastErr : Option ε)
    (e : ε) (hFail : fn attempt = .error e) :
    (cfg.failureCount + 1 < cfg.circuitBreakerThreshold →
      retryLoop fn failClock cfg attempt (remaining + 1) lastErr =
        let cfg' := { cfg with
          failureCount := cfg.failureCount + 1
          lastFailureTime := failClock attempt }
        let rest := retryLoop fn failClock cfg' (attempt + 1) remaining (some e)
        ⟨rest.outcome, rest.config,
          attempt :: rest.invoked,
          cfg.retryDelay * 2 ^ (attempt - 1) :: rest.waits⟩) ∧
    (cfg.circuitBreakerThreshold ≤ cfg.failureCount + 1 →
      retryLoop fn failClock cfg attempt (remaining + 1) lastErr =
        ⟨.circuitOpened,
          { cfg with
            failureCount := cfg.failureCount + 1
            lastFailureTime := failClock attempt
            circuitOpen := true },
          [attempt], []⟩) := by
  constructor
  · intro hlt
    simp [retryLoop, hFail, Nat.not_le.mpr hlt]
  · intro hge
    simp [retryLoop, hFail, hge]

/-- Witness for the amended C2: with the default configuration (threshold 5)
and an operation that always fails, the first failure (counter 0 → 1 < 5) is
followed by a wait of `1000 * 2 ^ 0` and a second attempt; with a threshold
of 1, the first failure opens the circuit at once with no wait. -/
theorem retryLoop_failure_step_witness :
    (retryLoop (fun _ => (Except.error () : Except Unit Nat)) (fun _ => 7)
        getDefaultRetryConfig 1 3 none =
      let cfg' := { getDefaultRetryConfig with
        failureCount := 1, lastFailureTime := 7 }
      let rest := retryLoop (fun _ => (Except.error () : Except Unit Nat))
        (fun _ => 7) cfg' 2 2 (some ())
      ⟨rest.outcome, rest.config, 1 :: rest.invoked, 1000 :: rest.waits⟩) ∧
    (retryLoop (fun _ => (Except.error () : Except Unit Nat)) (fun _ => 7)
        { getDefaultRetryConfig with circuitBreakerThreshold := 1 } 1 3 none =
      ⟨.circuitOpened,
        { getDefaultRetryConfig with
          circuitBreakerThreshold := 1
          failureCount := 1
          lastFailureTime := 7
          circuitOpen := true },
        [1], []⟩) := by
  constructor
  · exact (retryLoop_failure_step (fun _ => (Except.error () : Except Unit Nat))
      (fun _ => 7) getDefaultRetryConfig 1 2 none () rfl).1 (by decide)
  · exact (retryLoop_failure_step (fun _ => (Except.error () : Except Unit Nat))
      (fun _ => 7)
      { getDefaultRetryConfig with circuitBreakerThreshold := 1 }
      1 2 none () rfl).2 (by decide)

/-- Counterexample to claim C2 as stated.  Configuration: `maxRetries = 3`,
`retryDelay = 1000`, `circuitBreakerThreshold = 2`, circuit closed, failure
counter 0; the operation fails on every attempt.  Attempt 2 fails and its
attempt count 2 is below `maxRetries = 3`, so the claim predicts a wait of
`1000 * 2 ^ 1 = 2000` followed by a retry.  Instead the run performs only the
single wait of 1000 ms (after attempt 1), never invokes attempt 3, and ends
with the circuit-opened error thrown between retries: the breaker condition
is checked after each failure inside the loop, not only at the start of
`execute`. -/
theorem retryLoop_midloop_breaker_counterexample :
    2 < ({ getDefaultRetryConfig with circuitBreakerThreshold := 2 } :
        RetryConfig).maxRetries ∧
    executeWithRetry (fun _ => (Except.error () : Except Unit Nat)) 0
        (fun _ => 0)
        (some { getDefaultRetryConfig with circuitBreakerThreshold := 2 }) =
      ⟨.circuitOpened,
        { getDefaultRetryConfig with
          circuitBreakerThreshold := 2
          failureCount := 2
          circuitOpen := true },
        [1, 2], [1000]⟩ := by
  constructor
  · decide
  · decide

/-! ### C10: a call with the default configuration never sees the breaker -/

/-- Helper invariant for C10: as long as the current failure count plus the
number of remaining loop iterations stays below the circuit-breaker
threshold, the retry loop can never end with the circuit-opened error (and it
never produces the entry fast-fail error, which only `executeWithRetry`
raises). -/
theorem retryLoop_no_breaker_of_count_lt
    {ε α : Type} (fn : Nat → Except ε α) (failClock : Nat → Int) :
    ∀ (remaining : Nat) (cfg : RetryConfig) (attempt : Nat)
      (lastErr : Option ε),
      cfg.failureCount + remaining < cfg.circuitBreakerThreshold →
      (retryLoop fn failClock cfg attempt remaining lastErr).outcome ≠
          RetryOutcome.circuitOpened ∧
        (retryLoop fn failClock cfg attempt remaining lastErr).outcome ≠
          RetryOutcome.circuitOpenFastFail := by
  intro remaining
  induction remaining with
  | zero =>
    intro cfg attempt lastErr _h
    simp [retryLoop]
  | succ n ih =>
    intro cfg attempt lastErr h
    cases hfn : fn attempt with
    | ok v => simp [retryLoop, hfn]
    | error e =>
      have hlt : cfg.failureCount + 1 < cfg.circuitBreakerThreshold := by omega
      have hrec := ih
        { cfg with
          failureCount := cfg.failureCount + 1
          lastFailureTime := failClock attempt }
        (attempt + 1) (some e) (by simp; omega)
      simp [retryLoop, hfn, Nat.not_le.mpr hlt]
      exact hrec

/-- Claim C10: a call to `executeWithRetry` that omits the configuration
argument uses a fresh default configuration (failure count 0, circuit closed,
`maxRetries = 3`, `circuitBreakerThreshold = 5`), so the circuit-open
fast-fail branch is unreachable and, 3 attempts being fewer than the 5
failures the breaker needs, the circuit never opens: the call can never end
with either circuit-breaker error. -/
theorem executeWithRetry_default_no_breaker
    {ε α : Type} (fn : Nat → Except ε α) (now : Int) (failClock : Nat → Int) :
    executeWithRetry fn now failClock none =
        executeWithRetry fn now failClock (some getDefaultRetryConfig) ∧
      getDefaultRetryConfig.failureCount = 0 ∧
      getDefaultRetryConfig.circuitOpen = false ∧
      getDefaultRetryConfig.maxRetries = 3 ∧
      getDefaultRetryConfig.circuitBreakerThreshold = 5 ∧
      (executeWithRetry fn now failClock none).outcome ≠
        RetryOutcome.circuitOpened ∧
      (executeWithRetry fn now failClock none).outcome ≠
        RetryOutcome.circuitOpenFastFail := by
  refine ⟨rfl, rfl, rfl, rfl, rfl, ?_, ?_⟩
  · have h := (retryLoop_no_breaker_of_count_lt fn failClock 3
      getDefaultRetryConfig 1 none (by decide)).1
    simpa [executeWithRetry, getDefaultRetryConfig] using h
  · have h := (retryLoop_no_breaker_of_count_lt fn failClock 3
      getDefaultRetryConfig 1 none (by decide)).2
    simpa [executeWithRetry, getDefaultRetryConfig] using h

/-! ## Name similarity (`DbService` in `src/services/ai.ts`) -/

/-- Fuel-indexed form of the Levenshtein recurrence that the
`levenshteinDistance` dynamic-programming table of `src/services/ai.ts`
computes: `dp[i][j]` is the distance between the first `i` and first `j` characters
front segments, with `dp[i-1][j-1]` when the characters agree, otherwise
`min(substitution, deletion, insertion) + 1` in the order written in the
source.  The fuel only forces structural termination; it is irrelevant once
it dominates the combined length (`levFuel_congr`). -/
def levFuel : Nat → List Char → List Char → Nat
  | _, [], t => t.length
  | _, s, [] => s.length
  | 0, _, _ => 0
  | fuel + 1, a :: s, b :: t =>
    if a = b then levFuel fuel s t
    else
      min (levFuel fuel s t + 1)
        (min (levFuel fuel s (b :: t) + 1) (levFuel fuel (a :: s) t + 1))

/-- Embedding of `DbService.levenshteinDistance` (`src/services/ai.ts`). -/
def levenshteinDistance (s t : List Char) : Nat :=
  levFuel (s.length + t.length) s t

theorem levFuel_nil_left (f : Nat) (t : List Char) : levFuel f [] t = t.length := by
  cases f <;> cases t <;> rfl

theorem levFuel_cons_nil (f : Nat) (a : Char) (s : List Char) :
    levFuel f (a :: s) [] = s.length + 1 := by
  cases f <;> rfl

theorem levFuel_cons_cons (f : Nat) (a : Char) (s : List Char)
    (b : Char) (t : List Char) :
    levFuel (f + 1) (a :: s) (b :: t) =
      if a = b then levFuel f s t
      else
        min (levFuel f s t + 1)
          (min (levFuel f s (b :: t) + 1) (levFuel f (a :: s) t + 1)) := rfl

theorem levFuel_congr : ∀ (f₁ f₂ : Nat) (s t : List Char),
    s.length + t.length ≤ f₁ → s.length + t.length ≤ f₂ →
    levFuel f₁ s t = levFuel f₂ s t := by
  intro f₁
  induction f₁ with
  | zero =>
    intro f₂ s t h₁ _h₂
    cases s with
    | nil =>
      cases t with
      | nil => rw [levFuel_nil_left, levFuel_nil_left]
      | cons b t => simp at h₁
    | cons a s => simp at h₁
  | succ f ih =>
    intro f₂ s t h₁ h₂
    cases s with
    | nil => rw [levFuel_nil_left, levFuel_nil_left]
    | cons a s =>
      cases t with
      | nil => rw [levFuel_cons_nil, levFuel_cons_nil]
      | cons b t =>
        cases f₂ with
        | zero => simp at h₂
        | succ f₂ =>
          simp only [List.length_cons] at h₁ h₂
          rw [levFuel_cons_cons, levFuel_cons_cons,
            ih f₂ s t (by omega) (by omega),
            ih f₂ s (b :: t) (by simp; omega) (by simp; omega),
            ih f₂ (a :: s) t (by simp; omega) (by simp; omega)]

theorem levenshteinDistance_nil_left (t : List Char) :
    levenshteinDistance [] t = t.length :=
  levFuel_nil_left _ t

theorem levenshteinDistance_cons_nil (a : Char) (s : List Char) :
    levenshteinDistance (a :: s) [] = s.length + 1 :=
  levFuel_cons_nil _ a s

theorem levenshteinDistance_cons_cons (a : Char) (s : List Char)
    (b : Char) (t : List Char) :
    levenshteinDistance (a :: s) (b :: t) =
      if a = b then levenshteinDistance s t
      else
        min (levenshteinDistance s t + 1)
          (min (levenshteinDistance s (b :: t) + 1)
            (levenshteinDistance (a :: s) t + 1)) := by
  have key : levenshteinDistance (a :: s) (b :: t) =
      levFuel (s.length + t.length + 1 + 1) (a :: s) (b :: t) := by
    unfold levenshteinDistance
    apply levFuel_congr <;> (simp only [List.length_cons]; omega)
  rw [key, levFuel_cons_cons,
    levFuel_congr (s.length + t.length + 1) (s.length + t.length) s t
      (by omega) (by omega),
    levFuel_congr (s.length + t.length + 1) (s.length + (b :: t).length)
      s (b :: t) (by simp only [List.length_cons]; omega)
      (by simp only [List.length_cons]; omega),
    levFuel_congr (s.length + t.length + 1) ((a :: s).length + t.length)
      (a :: s) t (by simp only [List.length_cons]; omega)
      (by simp only [List.length_cons]; omega)]
  rfl

theorem levenshteinDistance_symm (s t : List Char) :
    levenshteinDistance s t = levenshteinDistance t s := by
  have aux : ∀ (n : Nat) (s t : List Char), s.length + t.length ≤ n →
      levenshteinDistance s t = levenshteinDistance t s := by
    intro n
    induction n with
    | zero =>
      intro s t h
      cases s with
      | nil =>
        cases t with
        | nil => rfl
        | cons b t => simp at h
      | cons a s => simp at h
    | succ n ih =>
      intro s t h
      cases s with
      | nil =>
        rw [levenshteinDistance_nil_left]
        cases t with
        | nil => rfl
        | cons b t => rw [levenshteinDistance_cons_nil]; simp
      | cons a s =>
        cases t with
        | nil =>
          rw [levenshteinDistance_cons_nil, levenshteinDistance_nil_left]
          simp
        | cons b t =>
          simp only [List.length_cons] at h
          rw [levenshteinDistance_cons_cons, levenshteinDistance_cons_cons]
          by_cases hab : a = b
          · subst hab
            simp only [if_pos rfl]
            exact ih s t (by omega)
          · rw [if_neg hab, if_neg (fun hba => hab hba.symm),
              ih s t (by omega), ih s (b :: t) (by simp; omega),
              ih (a :: s) t (by simp; omega)]
            omega
  exact aux (s.length + t.length) s t le_rfl

/-- True of the characters kept by the regular expression `[^a-z0-9]` used in
`DbService.normalizeArtistName` after lower-casing. -/
def isLowerAlnum (c : Char) : Bool :=
  ('a' ≤ c && c ≤ 'z') || ('0' ≤ c && c ≤ '9')

/-- Embedding of `DbService.normalizeArtistName` (`src/services/ai.ts`):
lower-case, then strip every character outside `[a-z0-9]` (which also removes
all whitespace, making the later whitespace-strip and trim no-ops). -/
def normalizeArtistName (name : String) : String :=
  String.mk ((name.toLower).data.filter isLowerAlnum)

/-- Normalized-Levenshtein similarity `1 - distance / max(length, length)` of
two already-normalized names, as computed (per pair) inside
`DbService.calculateSimilarityScore`.  JS floating point is modelled over
`ℚ`. -/
def similarityRatio (x y : String) : ℚ :=
  1 - (levenshteinDistance x.data y.data : ℚ) /
    ((max x.length y.length : Nat) : ℚ)

/-- Embedding of `DbService.calculateSimilarityScore` (`src/services/ai.ts`):
the first argument arrives already normalized; the candidate is scored
against both the artist name and the event name of an existing event and the
larger of the two ratios is returned. -/
def calculateSimilarityScore (normalizedName artistName eventName : String) : ℚ :=
  max (similarityRatio normalizedName (normalizeArtistName artistName))
    (similarityRatio normalizedName (normalizeArtistName eventName))

/-- The similarity score of claim C9: normalized-Levenshtein similarity of
two names, each normalized by lower-casing and stripping non-alphanumeric
characters. -/
def nameSimilarity (a b : String) : ℚ :=
  similarityRatio (normalizeArtistName a) (normalizeArtistName b)

theorem similarityRatio_symm (x y : String) :
    similarityRatio x y = similarityRatio y x := by
  unfold similarityRatio
  rw [levenshteinDistance_symm, Nat.max_comm]

/-- Claim C9: the normalized-Levenshtein similarity function is symmetric:
for every pair of strings, `nameSimilarity a b = nameSimilarity b a`, where
the score is `1 - levenshteinDistance(a, b) / max(|a|, |b|)` computed on the
names normalized by lower-casing and stripping non-alphanumeric
characters. -/
theorem nameSimilarity_symm (a b : String) :
    nameSimilarity a b = nameSimilarity b a :=
  similarityRatio_symm _ _

/-! ## Time normalization (`convertToTimeZone` in `src/utils/shared.ts`) -/

/-- The ordered list of explicit Luxon format strings tried by
`convertToTimeZone` (`src/utils/shared.ts`), verbatim and in source order. -/
def timeFormats : List String :=
  ["yyyy-MM-dd HH:mm",
   "yyyy-MM-dd h:mm a",
   "yyyy-MM-dd h:mma",
   "yyyy-MM-dd hh:mm a",
   "yyyy-MM-dd hh:mma",
   "MM/dd/yyyy HH:mm",
   "MM/dd/yyyy h:mm a",
   "MM/dd/yyyy h:mma",
   "MM/dd/yyyy hh:mm a",
   "MM/dd/yyyy hh:mma",
   "MMMM d, yyyy HH:mm",
   "MMMM d, yyyy h:mm a",
   "MMMM d, yyyy h:mma",
   "MMMM d, yyyy hh:mm a",
   "MMMM d, yyyy hh:mma",
   "d MMMM yyyy HH:mm",
   "d MMMM yyyy h:mm a",
   "d MMMM yyyy h:mma",
   "d MMMM yyyy hh:mm a",
   "d MMMM yyyy hh:mma",
   "MMM d, yyyy HH:mm",
   "MMM d, yyyy h:mm a",
   "MMM d, yyyy h:mma",
   "MMM d, yyyy hh:mm a",
   "MMM d, yyyy hh:mma",
   "d MMM yyyy HH:mm",
   "d MMM yyyy h:mm a",
   "d MMM yyyy h:mma",
   "d MMM yyyy hh:mm a",
   "d MMM yyyy hh:mma"]

/-- Abstraction of the Luxon primitives used by `convertToTimeZone`, over an
abstract type `τ` of (valid) zoned datetimes: `fromISO s` is
`DateTime.fromISO(s, {zone})` (`none` for an invalid result), `fromFormat f s`
is `DateTime.fromFormat(s, f, {zone})`, `setEvening` is
`.set({hour: 19, minute: 0, second: 0, millisecond: 0})`, `setZone` is
`.setZone(timezone, {keepLocalTime: false})` and `toISO` is `.toISO()`. -/
structure LuxonApi (τ : Type) where
  fromISO : String → Option τ
  fromFormat : String → String → Option τ
  setEvening : τ → τ
  setZone : τ → τ
  toISO : τ → String

/-- Embedding of `convertToTimeZone` (`src/utils/shared.ts`): try an ISO
parse, then each format of `timeFormats` in order, then a date-only
`yyyy-MM-dd` parse whose time of day is set to 19:00; the first valid parse
is zone-converted and serialized, and if every attempt fails the thrown
error message carries the original input string. -/
def convertToTimeZone {τ : Type} (L : LuxonApi τ) (dateStr : String) :
    Except String String :=
  let dt0 := L.fromISO dateStr
  let dt1 := match dt0 with
    | some d => some d
    | none => timeFormats.findSome? (fun format => L.fromFormat format dateStr)
  let dt2 := match dt1 with
    | some d => some d
    | none => (L.fromFormat "yyyy-MM-dd" dateStr).map L.setEvening
  match dt2 with
  | some d => .ok (L.toISO (L.setZone d))
  | none => .error ("Invalid date format: " ++ dateStr)

/-- Counterexample to claim C5 as stated: the claim says the ordered list of
explicit formats includes variants with a leading weekday, but no format in
`timeFormats` contains a weekday token at all (Luxon spells weekdays with the
letters `E` or `c`, and neither letter occurs in any of the 30 format
strings, which use only `y`, `M`, `d`, `H`, `h`, `m`, `a` and punctuation). -/
theorem timeFormats_no_weekday_counterexample :
    timeFormats.all
      (fun f => f.data.all (fun c => !(c == 'E' || c == 'c' || c == 'e'))) = true := by
  decide

/-- If the entries of `l` before index `i` all map to `none` and the entry at
`i` maps to `some d`, then `findSome?` returns `d`: the first hit wins. -/
theorem findSome?_of_first_hit {α τ : Type} (p : α → Option τ) (d : τ) :
    ∀ (l : List α) (i : Nat) (hi : i < l.length),
      (∀ j, ∀ hj : j < i, p (l.get ⟨j, Nat.lt_trans hj hi⟩) = none) →
      p (l.get ⟨i, hi⟩) = some d →
      l.findSome? p = some d := by
  intro l
  induction l with
  | nil => intro i hi; simp at hi
  | cons x xs ih =>
    intro i hi hbef hhit
    cases i with
    | zero =>
      have hx : p x = some d := hhit
      simp [List.findSome?_cons, hx]
    | succ i =>
      have hx : p x = none := hbef 0 (Nat.succ_pos i)
      have hrec := ih i (Nat.lt_of_succ_lt_succ hi)
        (fun j hj => hbef (j + 1) (Nat.succ_lt_succ hj)) hhit
      simp [List.findSome?_cons, hx, hrec]

/-- Claim C5 as amended (the format list has no weekday variants; everything
else as claimed): time normalization attempts interpretations in a fixed
order — ISO first; then the explicit formats of `timeFormats` in source
order, the first format yielding a valid date winning; then a date-only
`yyyy-MM-dd` parse that defaults the time of day to 19:00 — and when every
attempt fails the call fails with an error carrying the original input
string. -/
theorem convertToTimeZone_order {τ : Type} (L : LuxonApi τ) (dateStr : String) :
    (∀ d, L.fromISO dateStr = some d →
      convertToTimeZone L dateStr = .ok (L.toISO (L.setZone d))) ∧
    (∀ i : Nat, ∀ hi : i < timeFormats.length, ∀ d,
      L.fromISO dateStr = none →
      (∀ j, ∀ hj : j < i, L.fromFormat (timeFormats.get ⟨j, by omega⟩) dateStr = none) →
      L.fromFormat (timeFormats.get ⟨i, hi⟩) dateStr = some d →
      convertToTimeZone L dateStr = .ok (L.toISO (L.setZone d))) ∧
    (∀ d, L.fromISO dateStr = none →
      (∀ f, f ∈ timeFormats → L.fromFormat f dateStr = none) →
      L.fromFormat "yyyy-MM-dd" dateStr = some d →
      convertToTimeZone L dateStr = .ok (L.toISO (L.setZone (L.setEvening d)))) ∧
    (L.fromISO dateStr = none →
      (∀ f, f ∈ timeFormats → L.fromFormat f dateStr = none) →
      L.fromFormat "yyyy-MM-dd" dateStr = none →
      convertToTimeZone L dateStr =
        .error ("Invalid date format: " ++ dateStr)) := by
  refine ⟨?_, ?_, ?_, ?_⟩
  · intro d hd
    simp [convertToTimeZone, hd]
  · intro i hi d hiso hbefore hhit
    have hfind : timeFormats.findSome?
        (fun format => L.fromFormat format dateStr) = some d :=
      findSome?_of_first_hit (fun format => L.fromFormat format dateStr) d
        timeFormats i hi (fun j hj => hbefore j hj) hhit
    simp [convertToTimeZone, hiso, hfind]
  · intro d hiso hall hdo
    have hfind : timeFormats.findSome?
        (fun format => L.fromFormat format dateStr) = none := by
      rw [List.findSome?_eq_none_iff]
      intro f hf
      exact hall f hf
    simp [convertToTimeZone, hiso, hfind, hdo]
  · intro hiso hall hdo
    have hfind : timeFormats.findSome?
        (fun format => L.fromFormat format dateStr) = none := by
      rw [List.findSome?_eq_none_iff]
      intro f hf
      exact hall f hf
    simp [convertToTimeZone, hiso, hfind, hdo]

/-- A concrete instantiation of the Luxon primitives used to witness
`convertToTimeZone_order`: one string parses as ISO, one parses under the
first explicit format, one parses only as a date-only `yyyy-MM-dd`, and one
parses under nothing. -/
def luxonStub : LuxonApi Nat :=
  { fromISO := fun s => if s = "2024-01-01T19:00" then some 1 else none
    fromFormat := fun format s =>
      if format = "yyyy-MM-dd HH:mm" && s = "2024-01-01 19:00" then some 2
      else if format = "yyyy-MM-dd" && s = "2024-01-02" then some 3
      else none
    setEvening := fun d => d + 100
    setZone := fun d => d
    toISO := fun d => "iso" ++ toString d }

/-- Witness for the amended C5 at `luxonStub`: the ISO branch, the
first-format branch, the date-only 19:00 branch and the failure branch each
produce exactly what `convertToTimeZone_order` dictates. -/
theorem convertToTimeZone_order_witness :
    convertToTimeZone luxonStub "2024-01-01T19:00" =
        .ok (luxonStub.toISO (luxonStub.setZone 1)) ∧
    convertToTimeZone luxonStub "2024-01-01 19:00" =
        .ok (luxonStub.toISO (luxonStub.setZone 2)) ∧
    convertToTimeZone luxonStub "2024-01-02" =
        .ok (luxonStub.toISO (luxonStub.setZone (luxonStub.setEvening 3))) ∧
    convertToTimeZone luxonStub "garbage" =
        .error ("Invalid date format: " ++ "garbage") := by
  refine ⟨?_, ?_, ?_, ?_⟩
  · exact (convertToTimeZone_order luxonStub "2024-01-01T19:00").1 1 (by decide)
  · exact (convertToTimeZone_order luxonStub "2024-01-01 19:00").2.1 0
      (by decide) 2 (by decide) (fun j hj => absurd hj (Nat.not_lt_zero j))
      (by decide)
  · exact (convertToTimeZone_order luxonStub "2024-01-02").2.2.1 3
      (by decide) (by decide) (by decide)
  · exact (convertToTimeZone_order luxonStub "garbage").2.2.2
      (by decide) (by decide) (by decide)

/-! ## Reconciliation pipeline (`DbService` in `src/services/ai.ts`) -/

/-- Abstraction of the Luxon ISO handling used by `DbService`: `parseISO s`
models `toTorontoTime(s)` as an absolute instant in milliseconds (`none`
when the resulting DateTime is invalid) and `toISO` models `.toISO()`. -/
structure DateLib where
  parseISO : String → Option Int
  toISO : Int → String

def twoHoursMs : Int := 7200000

def fourHoursMs : Int := 14400000

def threeDaysMs : Int := 259200000

/-- Embedding of the `ScrapedEvent` shape (`src/utils/validation.ts`).
Artist ids are abstract database keys, modelled as `Nat`. -/
structure ScrapedEvent where
  artist : String
  eventName : Option String
  startDate : String
  endDate : Option String
  venueId : String
  artistId : Option Nat
  unsure : Option Bool
deriving Repr, DecidableEq

/-- The refinement checks `scrapedEventSchema.parse` performs on a well-typed
value (`src/utils/validation.ts`): non-empty artist, `startDate` of at least
24 characters, and, when an `endDate` is present, at least 24 characters. -/
def validateScrapedEvent (e : ScrapedEvent) : Bool :=
  (1 ≤ e.artist.length && 24 ≤ e.startDate.length) &&
    (match e.endDate with
     | none => true
     | some s => 24 ≤ s.length)

/-- JS truthiness of `event.eventName` (absent or empty string is falsy). -/
def eventNameTruthy (e : ScrapedEvent) : Bool :=
  match e.eventName with
  | none => false
  | some s => !s.isEmpty

/-- Embedding of the `Artist` record owned by the store. -/
structure Artist where
  id : Nat
  name : String
  approved : Bool
deriving Repr, DecidableEq

/-- Embedding of the persisted `Event` record, with the `artist` relation as
a foreign key and the `conflictingEvents` relation as a list of event ids. -/
structure StoreEvent where
  id : Nat
  name : String
  startDate : Int
  endDate : Int
  conflict : Bool
  approved : Bool
  artistId : Nat
  venueId : String
  conflictingEvents : List Nat
deriving Repr, DecidableEq

/-- The Prisma database state visible to `DbService`: artist and event
tables plus a fresh-id source for created rows. -/
structure Store where
  artists : List Artist
  events : List StoreEvent
  nextId : Nat
deriving Repr, DecidableEq

/-- The `artist` relation included with an event by the queries of
`DbService` (`include: { artist: true }`). -/
def artistNameOf (st : Store) (ev : StoreEvent) : String :=
  (((st.artists.find? (fun a => a.id == ev.artistId)).map Artist.name).getD "")

/-- Case-insensitive substring test, modelling a Prisma `contains` filter
with `mode: "insensitive"`. -/
def strContainsCI (hay needle : String) : Bool :=
  ((hay.toLower).data.tails).any (fun tail => (needle.toLower).data.isPrefixOf tail)

/-- One entry of the `matchesWithScores` array built by
`checkForDuplicatesAndConflicts`. -/
structure ScoredMatch where
  event : StoreEvent
  score : ℚ
deriving Repr, DecidableEq

/-- Stable insertion into a list sorted by score descending; ties keep the
earlier element first, as the (stable) JS `Array.prototype.sort` with
comparator `(a, b) => b.score - a.score` does. -/
def insertByScore (m : ScoredMatch) : List ScoredMatch → List ScoredMatch
  | [] => [m]
  | x :: xs =>
    if decide (m.score < x.score) then x :: insertByScore m xs
    else m :: x :: xs

/-- Stable sort by score descending (`matchesWithScores.sort((a, b) =>
b.score - a.score)`); a stable sort is unique, so insertion sort is an exact
model of the engine sort. -/
def sortByScoreDesc : List ScoredMatch → List ScoredMatch
  | [] => []
  | x :: xs => insertByScore x (sortByScoreDesc xs)

/-- The `findMany` pre-filter of `checkForDuplicatesAndConflicts`: same
venue, `startDate` within ±4 hours of the candidate instant, and artist name
or event name containing the normalized candidate artist name
case-insensitively. -/
def potentialMatches (st : Store) (venueId : String) (normalized : String)
    (start : Int) : List StoreEvent :=
  st.events.filter (fun ev =>
    (decide (start - fourHoursMs ≤ ev.startDate) &&
      decide (ev.startDate ≤ start + fourHoursMs)) &&
    ev.venueId == venueId &&
    (strContainsCI (artistNameOf st ev) normalized ||
      strContainsCI ev.name normalized))

/-- The `matchesWithScores` array: each potential match scored by
`calculateSimilarityScore` against its artist name and event name. -/
def scoreMatches (st : Store) (normalized : String) (evs : List StoreEvent) :
    List ScoredMatch :=
  evs.map (fun ev =>
    ⟨ev, calculateSimilarityScore normalized (artistNameOf st ev) ev.name⟩)

/-- Result shape of `checkForDuplicatesAndConflicts` (the echoed
`scrapedEvent` field is dropped; it is returned unchanged). -/
structure CheckResult where
  conflictEvent : Option StoreEvent
  isDuplicate : Bool
deriving Repr, DecidableEq

/-- The scored match window of `checkForDuplicatesAndConflicts` for a
candidate whose start parses to `start`: the ±4h same-venue pre-filter,
scored against the normalized candidate artist name. -/
def windowScores (st : Store) (e : ScrapedEvent) (start : Int) :
    List ScoredMatch :=
  scoreMatches st (normalizeArtistName e.artist)
    (potentialMatches st e.venueId (normalizeArtistName e.artist) start)

/-- A Luxon `DateTime` as far as `DateTime.equals` is concerned: the
millisecond instant together with the zone it is expressed in. -/
structure ZonedDateTime where
  instant : Int
  zone : String
deriving Repr, DecidableEq

/-- Luxon 3 `DateTime.equals`: true only when both the millisecond value and
the zone (and locale, constant here) agree — `this.valueOf() ===
other.valueOf() && this.zone.equals(other.zone)`. -/
def luxonEquals (a b : ZonedDateTime) : Bool :=
  a.instant == b.instant && a.zone == b.zone

/-- `DateTime.fromJSDate(event.startDate).toUTC()`: the stored instant,
expressed in the UTC zone. -/
def fromJSDateToUTC (instant : Int) : ZonedDateTime :=
  ⟨instant, "UTC"⟩

/-- `toTorontoTime(scrapedEvent.startDate)`: the candidate instant,
expressed in the America/Toronto zone. -/
def toTorontoZoned (instant : Int) : ZonedDateTime :=
  ⟨instant, "America/Toronto"⟩

/-- The zone halves never agree, so the `equals` test of the duplicate
check is false whatever the two instants are. -/
theorem luxonEquals_utc_toronto (x y : Int) :
    luxonEquals (fromJSDateToUTC x) (toTorontoZoned y) = false := by
  have hz : (("UTC" : String) == "America/Toronto") = false := rfl
  simp [luxonEquals, fromJSDateToUTC, toTorontoZoned, hz]

/-- Embedding of `DbService.checkForDuplicatesAndConflicts`
(`src/services/ai.ts`), continued: parse the candidate start (throwing on an
invalid date), score the pre-filtered window, sort it descending, then pick
the first match above 0.8 whose UTC-converted stored start `equals` the
Toronto-zoned candidate start (duplicate) and the first match above 0.8
failing that equality (conflict).  Luxon `equals` compares zones as well as
instants, so the duplicate test never passes and the conflict test ignores
the instants. -/
def checkForDuplicatesAndConflicts (L : DateLib) (st : Store)
    (e : ScrapedEvent) : Except String CheckResult :=
  match L.parseISO e.startDate with
  | none => .error ("Invalid start date: " ++ e.startDate)
  | some start =>
    let sorted := sortByScoreDesc (windowScores st e start)
    let exactTimeMatch := sorted.find?
      (fun m => luxonEquals (fromJSDateToUTC m.event.startDate)
          (toTorontoZoned start) &&
        decide ((0.8 : ℚ) < m.score))
    let timeConflict := sorted.find?
      (fun m => !(luxonEquals (fromJSDateToUTC m.event.startDate)
          (toTorontoZoned start)) &&
        decide ((0.8 : ℚ) < m.score))
    .ok ⟨timeConflict.map ScoredMatch.event, exactTimeMatch.isSome⟩

/-- Embedding of `DbService.maybeCreateArtist`: look up by exact name,
create (approved) when absent. -/
def maybeCreateArtist (st : Store) (name : String) : Artist × Store :=
  match st.artists.find? (fun a => a.name == name) with
  | some a => (a, st)
  | none =>
    let a : Artist := ⟨st.nextId, name, true⟩
    (a, { st with artists := st.artists ++ [a], nextId := st.nextId + 1 })

/-- A Prisma relation `connect`: adds the id when not already present (a
repeated connect is a no-op). -/
def connectId (ids : List Nat) (i : Nat) : List Nat :=
  if ids.contains i then ids else ids ++ [i]

/-- Embedding of `DbService.updateConflictingEvent` (`src/services/ai.ts`):
`prisma.event.update({where: {id: event.id}, data: {conflictingEvents:
{connect: {id: event.id}}}})` — the matched event is connected to its own
`conflictingEvents` relation; no other field (in particular not `conflict`)
is written. -/
def updateConflictingEvent (st : Store) (eventId : Nat) : Store :=
  { st with
    events := st.events.map (fun ev =>
      if ev.id == eventId then
        { ev with conflictingEvents := connectId ev.conflictingEvents eventId }
      else ev) }

/-- One element of `transactionData`: the raw scraped event spread together
with the resolved artist id and the computed `conflict` flag. -/
structure TxnData where
  event : ScrapedEvent
  conflict : Bool
deriving Repr, DecidableEq

/-- The end-date normalization of the phase-1 loop: absent end dates default
to start + 2 hours; present ones must parse and are re-serialized. -/
def normalizeEnd (L : DateLib) (start : Int) : Option String → Option String
  | none => some (L.toISO (start + twoHoursMs))
  | some s =>
    match L.parseISO s with
    | none => none
    | some endInst => some (L.toISO endInst)

/-- The `try` block of the per-candidate loop of
`DbService.processAndCreateEvents`: schema validation, date normalization,
duplicate/conflict classification, the conflict update, artist resolution
and the push onto `transactionData`.  `.error ()` stands for a thrown
exception (caught by the surrounding `catch`); every throw happens before
any store write, so the store is returned only on success. -/
def tryProcessEvent (L : DateLib) (st : Store) (e : ScrapedEvent) :
    Except Unit (Option TxnData × Store) :=
  if validateScrapedEvent e = false then .error () else
  match L.parseISO e.startDate with
  | none => .error ()
  | some start =>
    match normalizeEnd L start e.endDate with
    | none => .error ()
    | some endStr =>
      let validated := { e with startDate := L.toISO start, endDate := some endStr }
      match checkForDuplicatesAndConflicts L st validated with
      | .error _ => .error ()
      | .ok check =>
        if check.isDuplicate then .ok (none, st)
        else
          match check.conflictEvent with
          | some conflictEvent =>
            let st₁ := updateConflictingEvent st conflictEvent.id
            let resolved := maybeCreateArtist st₁ e.artist
            .ok (some ⟨{ e with artistId := some resolved.1.id }, true⟩, resolved.2)
          | none =>
            let resolved := maybeCreateArtist st e.artist
            .ok (some ⟨{ e with artistId := some resolved.1.id }, false⟩, resolved.2)

/-- One iteration of the phase-1 loop including its `catch`: a candidate
that threw but has a truthy `eventName` and a falsy `artist` is rerouted to
the reserved Various artist (with the `conflict` flag still false, since
every throw happens before the flag can be set); any other throwing
candidate is logged and skipped. -/
def processOne (L : DateLib) (st : Store) (various : Artist)
    (e : ScrapedEvent) : Option TxnData × Store :=
  match tryProcessEvent L st e with
  | .ok r => r
  | .error _ =>
    if eventNameTruthy e && e.artist.isEmpty then
      (some ⟨{ e with artistId := some various.id }, false⟩, st)
    else (none, st)

/-- The phase-1 loop over the batch, threading the store and collecting
`transactionData` in order. -/
def runPhase1 (L : DateLib) (various : Artist) :
    Store → List ScrapedEvent → List TxnData × Store
  | st, [] => ([], st)
  | st, e :: es =>
    let step := processOne L st various e
    let rest := runPhase1 L various step.2 es
    (step.1.toList ++ rest.1, rest.2)

/-- One item of the persist phase (`prisma.event.create` inside the mapped
`Promise.all`): a missing artist id fails the `assert` (caught, skipped); an
unparseable start compares false in the staleness check and then fails
`create` with `PrismaClientValidationError` (the `true` flag, which aborts
the whole call); a stale start is skipped; a `(venueId, startDate)` clash is
a `PrismaClientKnownRequestError` (skipped benignly) — the uniqueness
constraint lives in the Prisma schema outside `src/` and is modelled from
the spec, which has `createEvent` fail with `DuplicateKeyError` on a
uniqueness violation. -/
def persistItem (L : DateLib) (now : Int) (isDev : Bool) (st : Store)
    (d : TxnData) : Option StoreEvent × Store × Bool :=
  match d.event.artistId with
  | none => (none, st, false)
  | some artistId =>
    let startOpt := L.parseISO d.event.startDate
    let endOpt : Option Int :=
      match d.event.endDate with
      | some s => L.parseISO s
      | none => startOpt.map (fun s => s + twoHoursMs)
    if (match startOpt with
        | some s => decide (s < now - threeDaysMs)
        | none => false) then
      (none, st, false)
    else
      match startOpt, endOpt with
      | some start, some endAt =>
        if st.events.any (fun ev =>
            ev.venueId == d.event.venueId && ev.startDate == start) then
          (none, st, false)
        else
          let ev : StoreEvent :=
            { id := st.nextId
              name := d.event.eventName.getD ""
              startDate := start
              endDate := endAt
              conflict := d.conflict
              approved := !isDev
              artistId := artistId
              venueId := d.event.venueId
              conflictingEvents := [] }
          (some ev, { st with events := st.events ++ [ev], nextId := st.nextId + 1 }, false)
      | _, _ => (none, st, true)

/-- The persist phase over `transactionData`.  The source starts every
`create` (inside `Promise.all`) and the issued writes take effect even when
one item rejects, so every item is run, the created events are collected in
order, and the abort flag records whether any item hit
`PrismaClientValidationError` (in which case `Promise.all`, and hence the
whole call, rejects). -/
def runPersist (L : DateLib) (now : Int) (isDev : Bool) :
    Store → List TxnData → List StoreEvent × Store × Bool
  | st, [] => ([], st, false)
  | st, d :: ds =>
    let step := persistItem L now isDev st d
    let rest := runPersist L now isDev step.2.1 ds
    (step.1.toList ++ rest.1, rest.2.1, step.2.2 || rest.2.2)

/-- The ways `DbService.processAndCreateEvents` can throw: the reserved
Various artist is missing, or a persist-time `PrismaClientValidationError`
was rethrown as `Invalid data, throwing error`. -/
inductive PipelineError where
  | variousNotFound
  | invalidData
deriving Repr, DecidableEq

/-- Embedding of `DbService.processAndCreateEvents` (`src/services/ai.ts`):
look up the Various artist (throwing when absent), run the per-candidate
classification loop, then persist the collected transaction data, returning
the created events (nulls filtered out). -/
def processAndCreateEvents (L : DateLib) (now : Int) (isDev : Bool)
    (st : Store) (scrapedEvents : List ScrapedEvent) :
    Except PipelineError (List StoreEvent × Store) :=
  match st.artists.find? (fun a => a.name == "Various") with
  | none => .error .variousNotFound
  | some various =>
    let phase1 := runPhase1 L various st scrapedEvents
    let persisted := runPersist L now isDev phase1.2 phase1.1
    if persisted.2.2 then .error .invalidData
    else .ok (persisted.1, persisted.2.1)

/-! ### C3: duplicate/conflict classification -/

theorem insertByScore_perm (m : ScoredMatch) (l : List ScoredMatch) :
    (insertByScore m l).Perm (m :: l) := by
  induction l with
  | nil => simp [insertByScore]
  | cons x xs ih =>
    rw [insertByScore]
    split
    · exact ((ih.cons x).trans (List.Perm.swap m x xs)).symm.symm
    · exact List.Perm.refl _

theorem sortByScoreDesc_perm (l : List ScoredMatch) :
    (sortByScoreDesc l).Perm l := by
  induction l with
  | nil => exact List.Perm.refl _
  | cons x xs ih =>
    exact (insertByScore_perm x (sortByScoreDesc xs)).trans (ih.cons x)

/-- Claim C3 as amended: for a candidate whose start parses, the check never
reports a duplicate — the Luxon `equals` between the UTC-converted stored
start and the Toronto-zoned candidate start also compares zones, so it is
false at every pair of instants, equal or not — and it reports a conflict
match exactly when SOME window match has score strictly above 0.8,
regardless of its start instant; when every window score is at most 0.8 (in
particular at exactly 0.8) it reports no conflict either, so the candidate
is classified as new. -/
theorem checkForDuplicatesAndConflicts_classification
    (L : DateLib) (st : Store) (e : ScrapedEvent) (start : Int)
    (hstart : L.parseISO e.startDate = some start) :
    ∀ r, checkForDuplicatesAndConflicts L st e = .ok r →
      r.isDuplicate = false ∧
      ((r.conflictEvent ≠ none) ↔
        ∃ m ∈ windowScores st e start, (0.8 : ℚ) < m.score) ∧
      ((∀ m ∈ windowScores st e start, m.score ≤ (0.8 : ℚ)) →
        r.conflictEvent = none) := by
  intro r hr
  rw [checkForDuplicatesAndConflicts, hstart] at hr
  simp only [Except.ok.injEq] at hr
  subst hr
  have hperm := sortByScoreDesc_perm (windowScores st e start)
  refine ⟨?_, ?_, ?_⟩
  · have hnone : (sortByScoreDesc (windowScores st e start)).find?
        (fun m => luxonEquals (fromJSDateToUTC m.event.startDate)
            (toTorontoZoned start) &&
          decide ((0.8 : ℚ) < m.score)) = none := by
      rw [List.find?_eq_none]
      intro m _hm
      simp [luxonEquals_utc_toronto]
    simp [hnone]
  · rw [Ne, Option.map_eq_none', ← Ne, Option.ne_none_iff_isSome,
      List.find?_isSome]
    constructor
    · rintro ⟨m, hm, hp⟩
      simp only [luxonEquals_utc_toronto, Bool.not_false, Bool.true_and,
        decide_eq_true_eq] at hp
      exact ⟨m, hperm.mem_iff.mp hm, hp⟩
    · rintro ⟨m, hm, h2⟩
      refine ⟨m, hperm.mem_iff.mpr hm, ?_⟩
      simp only [luxonEquals_utc_toronto, Bool.not_false, Bool.true_and,
        decide_eq_true_eq]
      exact h2
  · intro hall
    rw [Option.map_eq_none', List.find?_eq_none]
    intro m hm hp
    simp only [luxonEquals_utc_toronto, Bool.not_false, Bool.true_and,
      decide_eq_true_eq] at hp
    exact absurd hp (not_lt.mpr (hall m (hperm.mem_iff.mp hm)))

/-- Test date library used by the concrete runs: instants are encoded as
`iso:` followed by a zero-padded decimal millisecond count, so that parse
and print round-trip on the nonnegative instants used in the examples and
every serialized string passes the 24-character schema minimum. -/
def dateLib₀ : DateLib :=
  { parseISO := fun s => if s.startsWith "iso:" then (s.drop 4).toInt? else none
    toISO := fun t => "iso:0000000000000000000" ++ toString t }

/-- Store for the C3 counterexample: one artist and a single event at venue
`v1`, event 11 (artist `abcdef`) starting exactly at the candidate
instant. -/
def stC3 : Store :=
  { artists := [⟨1, "abcdef", true⟩]
    events := [⟨11, "", 72000000, 79200000, false, true, 1, "v1", []⟩]
    nextId := 20 }

/-- Candidate for the C3 counterexample: artist `abcdef` starting at instant
72000000 at venue `v1`. -/
def candC3 : ScrapedEvent :=
  { artist := "abcdef"
    eventName := none
    startDate := "iso:00000000000072000000"
    endDate := none
    venueId := "v1"
    artistId := none
    unsure := none }

/-- Counterexample to claim C3 as stated.  The candidate start parses to
72000000 and the window holds exactly one match: event 11, score 1 (exact
artist match), starting at exactly the candidate instant 72000000.  The
highest-scoring window event therefore has score strictly above 0.8 and a
`startAt` exactly equal to the candidate, so by the claim the
classification must be Duplicate and not Conflict; the code instead returns
`isDuplicate = false` and reports that very event as the conflict match —
the zone-sensitive Luxon `equals` between a UTC-converted and a
Toronto-zoned DateTime never holds, even at identical instants. -/
theorem checkForDuplicates_zone_equality_counterexample :
    dateLib₀.parseISO candC3.startDate = some 72000000 ∧
    windowScores stC3 candC3 72000000 =
      [⟨⟨11, "", 72000000, 79200000, false, true, 1, "v1", []⟩, 1⟩] ∧
    (0.8 : ℚ) < 1 ∧
    (⟨11, "", 72000000, 79200000, false, true, 1, "v1", []⟩ :
      StoreEvent).startDate = 72000000 ∧
    checkForDuplicatesAndConflicts dateLib₀ stC3 candC3 =
      .ok ⟨some ⟨11, "", 72000000, 79200000, false, true, 1, "v1", []⟩,
        false⟩ := by
  refine ⟨?_, ?_, ?_, rfl, ?_⟩
  · with_unfolding_all rfl
  · with_unfolding_all rfl
  · with_unfolding_all decide
  · with_unfolding_all rfl

/-- Witness for the amended C3 at the counterexample data: the reported
conflict match is realized by the concrete window member with score above
0.8 (at the very same instant as the candidate). -/
theorem checkForDuplicatesAndConflicts_classification_witness :
    ∃ m ∈ windowScores stC3 candC3 72000000, (0.8 : ℚ) < m.score := by
  have h := checkForDuplicatesAndConflicts_classification dateLib₀ stC3 candC3
    72000000 (by with_unfolding_all rfl)
    ⟨some ⟨11, "", 72000000, 79200000, false, true, 1, "v1", []⟩, false⟩
    (by with_unfolding_all rfl)
  exact h.2.1.mp (by simp)

/-! ### C1: what the conflict branch actually writes -/

theorem connectId_idem (ids : List Nat) (i : Nat) :
    connectId (connectId ids i) i = connectId ids i := by
  by_cases h : i ∈ ids
  · simp [connectId, h]
  · simp [connectId, h]

theorem updateConflictingEvent_conflict_flags (st : Store) (eventId : Nat) :
    (updateConflictingEvent st eventId).events.map StoreEvent.conflict =
      st.events.map StoreEvent.conflict := by
  rw [updateConflictingEvent]
  induction st.events with
  | nil => rfl
  | cons ev evs ih =>
    simp only [List.map_cons, List.map_map] at ih ⊢
    rw [ih]
    by_cases h : (ev.id == eventId) = true
    · simp [h]
    · simp only [Bool.not_eq_true] at h
      simp [h]

theorem updateConflictingEvent_idem (st : Store) (eventId : Nat) :
    updateConflictingEvent (updateConflictingEvent st eventId) eventId =
      updateConflictingEvent st eventId := by
  simp only [updateConflictingEvent, List.map_map]
  congr 1
  apply List.map_congr_left
  intro ev _hev
  by_cases h : (ev.id == eventId) = true
  · simp [Function.comp, h, connectId_idem]
  · simp only [Bool.not_eq_true] at h
    simp [Function.comp, h]

/-- Claim C1 as amended: when the phase-1 loop classifies a candidate as a
conflict (start parses, schema and end date are fine, the check reports no
duplicate but a conflict match `m`), the store update applied to the
existing matched event only connects `m` into its own `conflictingEvents`
relation — a `conflict` flag of no stored event changes, and the update is
idempotent — while the candidate is pushed onto `transactionData` with
`conflict := true`, and a transaction row persisted by the create step
always yields an event whose `conflict` field equals that flag (so the new
event is persisted with `conflict = true`). -/
theorem conflict_branch_updates_relation_not_flag
    (L : DateLib) (st : Store) (e : ScrapedEvent) (start : Int)
    (endStr : String) (m : StoreEvent)
    (hval : validateScrapedEvent e = true)
    (hstart : L.parseISO e.startDate = some start)
    (hend : normalizeEnd L start e.endDate = some endStr)
    (hcheck : checkForDuplicatesAndConflicts L st
      { e with startDate := L.toISO start, endDate := some endStr } =
        .ok ⟨some m, false⟩) :
    tryProcessEvent L st e =
      .ok (some
          ⟨{ e with artistId := some (maybeCreateArtist (updateConflictingEvent st m.id) e.artist).1.id },
            true⟩,
        (maybeCreateArtist (updateConflictingEvent st m.id) e.artist).2) ∧
    (updateConflictingEvent st m.id).events.map StoreEvent.conflict =
      st.events.map StoreEvent.conflict ∧
    updateConflictingEvent (updateConflictingEvent st m.id) m.id =
      updateConflictingEvent st m.id ∧
    (∀ (now : Int) (isDev : Bool) (st' st'' : Store) (d : TxnData)
        (r : StoreEvent) (bad : Bool),
      persistItem L now isDev st' d = (some r, st'', bad) →
      r.conflict = d.conflict) := by
  refine ⟨?_, updateConflictingEvent_conflict_flags st m.id,
    updateConflictingEvent_idem st m.id, ?_⟩
  · simp only [tryProcessEvent, hval, Bool.true_eq_false, if_false, hstart,
      hend, hcheck]
    rfl
  · intro now isDev st' st'' d r bad hp
    simp only [persistItem] at hp
    split at hp
    · simp at hp
    · split at hp
      · simp at hp
      · split at hp
        · split at hp
          · simp at hp
          · simp only [Prod.mk.injEq, Option.some.injEq] at hp
            rw [← hp.1]
        · simp at hp

/-- The pre-existing matched event of the C1 scenario: artist `abcdef` at
instant 75600000 (one hour after the incoming candidate), not conflicted. -/
def evC1existing : StoreEvent :=
  ⟨10, "", 75600000, 82800000, false, true, 1, "v1", []⟩

/-- Store for the C1 scenario: the reserved Various artist, the artist
`abcdef` and the single event `evC1existing`. -/
def stC1 : Store :=
  { artists := [⟨0, "Various", true⟩, ⟨1, "abcdef", true⟩]
    events := [evC1existing]
    nextId := 20 }

/-- Candidate for the C1 scenario: same artist and venue as `evC1existing`
but starting at 72000000, one hour earlier — a conflict, not a duplicate. -/
def candC1 : ScrapedEvent :=
  { artist := "abcdef"
    eventName := some "Show"
    startDate := "iso:00000000000072000000"
    endDate := none
    venueId := "v1"
    artistId := none
    unsure := none }

/-- Witness for the amended C1: at the concrete conflict scenario the
phase-1 step takes exactly the conflict branch described by
`conflict_branch_updates_relation_not_flag`. -/
theorem conflict_branch_updates_relation_not_flag_witness :
    tryProcessEvent dateLib₀ stC1 candC1 =
      .ok (some
          ⟨{ candC1 with artistId := some (maybeCreateArtist (updateConflictingEvent stC1 evC1existing.id) candC1.artist).1.id },
            true⟩,
        (maybeCreateArtist (updateConflictingEvent stC1 evC1existing.id) candC1.artist).2) :=
  (conflict_branch_updates_relation_not_flag dateLib₀ stC1 candC1 72000000
    (dateLib₀.toISO 79200000) evC1existing
    (by with_unfolding_all rfl) (by with_unfolding_all rfl)
    (by with_unfolding_all rfl) (by with_unfolding_all rfl)).1

/-- Counterexample to claim C1 as stated.  Running the pipeline on the
conflict scenario persists the new candidate as its own event with
`conflict = true`, but the existing matched event 10 does NOT get its
`conflict` flag set: it ends the run with `conflict = false` and merely has
its own id connected into its `conflictingEvents` relation. -/
theorem processAndCreateEvents_conflict_flag_counterexample :
    processAndCreateEvents dateLib₀ 72000000 false stC1 [candC1] =
      .ok ([⟨20, "Show", 72000000, 79200000, true, true, 1, "v1", []⟩],
        { artists := [⟨0, "Various", true⟩, ⟨1, "abcdef", true⟩]
          events := [⟨10, "", 75600000, 82800000, false, true, 1, "v1", [10]⟩,
                     ⟨20, "Show", 72000000, 79200000, true, true, 1, "v1", []⟩]
          nextId := 21 }) ∧
    (⟨10, "", 75600000, 82800000, false, true, 1, "v1", [10]⟩ : StoreEvent).conflict = false ∧
    (⟨20, "Show", 72000000, 79200000, true, true, 1, "v1", []⟩ : StoreEvent).conflict = true := by
  refine ⟨?_, rfl, rfl⟩
  with_unfolding_all rfl

/-! ### C6: staleness threshold -/

theorem persistItem_fresh (L : DateLib) (now : Int) (isDev : Bool)
    (st : Store) (d : TxnData) (r : StoreEvent) (st' : Store) (bad : Bool)
    (hp : persistItem L now isDev st d = (some r, st', bad)) :
    ¬(r.startDate < now - threeDaysMs) := by
  simp only [persistItem] at hp
  split at hp
  · simp at hp
  · rename_i artistId hA
    split at hp
    · simp at hp
    · rename_i hcond
      split at hp
      · rename_i start' endAt hS hE
        split at hp
        · simp at hp
        · simp only [Prod.mk.injEq, Option.some.injEq] at hp
          rw [hS] at hcond
          simp only [decide_eq_true_eq] at hcond
          rw [← hp.1]
          exact hcond
      · simp at hp

theorem runPersist_fresh (L : DateLib) (now : Int) (isDev : Bool) :
    ∀ (ds : List TxnData) (st : Store),
      ∀ r ∈ (runPersist L now isDev st ds).1,
        ¬(r.startDate < now - threeDaysMs) := by
  intro ds
  induction ds with
  | nil => intro st r hr; simp [runPersist] at hr
  | cons d ds ih =>
    intro st r hr
    rw [runPersist] at hr
    rcases List.mem_append.mp hr with hr | hr
    · rcases hstep : (persistItem L now isDev st d).1 with _ | r'
      · rw [hstep] at hr; simp at hr
      · rw [hstep] at hr
        simp only [Option.toList_some, List.mem_singleton] at hr
        subst hr
        exact persistItem_fresh L now isDev st d r
          (persistItem L now isDev st d).2.1
          (persistItem L now isDev st d).2.2
          (by rw [← hstep])
    · exact ih (persistItem L now isDev st d).2.1 r hr

/-- Store for the C6 scenario: the Various artist, one regular artist, no
events yet. -/
def stC6 : Store :=
  { artists := [⟨0, "Various", true⟩, ⟨1, "ghijkl", true⟩]
    events := []
    nextId := 5 }

/-- C6 candidate starting 2 days before the pipeline clock (fresh). -/
def candC6fresh : ScrapedEvent :=
  { artist := "ghijkl"
    eventName := none
    startDate := "iso:00000000000259200000"
    endDate := none
    venueId := "w1"
    artistId := none
    unsure := none }

/-- C6 candidate starting 4 days before the pipeline clock (stale). -/
def candC6stale : ScrapedEvent :=
  { artist := "ghijkl"
    eventName := none
    startDate := "iso:00000000000086400000"
    endDate := none
    venueId := "w1"
    artistId := none
    unsure := none }

/-- Claim C6: no event returned by a pipeline run starts more than
`threeDaysMs` (the hard-coded 3-day staleness threshold) before the
pipeline clock `now`, whatever the matching classification was; and in the
concrete run at `now = 432000000` the candidate 2 days in the past is
persisted while the one 4 days in the past is skipped. -/
theorem processAndCreateEvents_staleness :
    (∀ (L : DateLib) (now : Int) (isDev : Bool) (st : Store)
        (batch : List ScrapedEvent) (rs : List StoreEvent) (st₂ : Store),
      processAndCreateEvents L now isDev st batch = .ok (rs, st₂) →
      ∀ r ∈ rs, ¬(r.startDate < now - threeDaysMs)) ∧
    processAndCreateEvents dateLib₀ 432000000 false stC6
        [candC6fresh, candC6stale] =
      .ok ([⟨5, "", 259200000, 266400000, false, true, 1, "w1", []⟩],
        { artists := [⟨0, "Various", true⟩, ⟨1, "ghijkl", true⟩]
          events := [⟨5, "", 259200000, 266400000, false, true, 1, "w1", []⟩]
          nextId := 6 }) := by
  constructor
  · intro L now isDev st batch rs st₂ hok r hr
    simp only [processAndCreateEvents] at hok
    split at hok
    · simp at hok
    · split at hok
      · simp at hok
      · simp only [Except.ok.injEq, Prod.mk.injEq] at hok
        rw [← hok.1] at hr
        exact runPersist_fresh L now isDev _ _ r hr
  · with_unfolding_all rfl

/-- Witness for C6 at the concrete run: the persisted event (2 days old)
satisfies the freshness bound. -/
theorem processAndCreateEvents_staleness_witness :
    ¬(((⟨5, "", 259200000, 266400000, false, true, 1, "w1", []⟩ :
        StoreEvent)).startDate < 432000000 - threeDaysMs) :=
  processAndCreateEvents_staleness.1 dateLib₀ 432000000 false stC6
    [candC6fresh, candC6stale]
    [⟨5, "", 259200000, 266400000, false, true, 1, "w1", []⟩]
    { artists := [⟨0, "Various", true⟩, ⟨1, "ghijkl", true⟩]
      events := [⟨5, "", 259200000, 266400000, false, true, 1, "w1", []⟩]
      nextId := 6 }
    processAndCreateEvents_staleness.2 _ (by simp)

/-! ### C7: per-candidate isolation and the return value -/

/-- A schema-invalid candidate with an event name but no artist, whose raw
start date parses under no interpretation: rerouted to Various in phase 1,
it reaches `prisma.event.create` with an invalid date at persist time. -/
def candBadC7 : ScrapedEvent :=
  { artist := ""
    eventName := some "Mystery Night"
    startDate := "badbadbadbadbadbadbadbad"
    endDate := none
    venueId := "w1"
    artistId := none
    unsure := none }

/-- Counterexample to claim C7 as stated.  The batch holds a perfectly valid
candidate followed by `candBadC7`.  The bad candidate is rerouted to the
Various artist, reaches the persist phase with an unparseable start date and
makes `prisma.event.create` fail with `PrismaClientValidationError`, which
the catch rethrows: the whole call ends in an error instead of returning the
list holding the first candidate `s` created event — one failing candidate
does abort the batch result, and the pipeline does not always return a
list. -/
theorem processAndCreateEvents_validation_abort_counterexample :
    processAndCreateEvents dateLib₀ 432000000 false stC6
        [candC6fresh, candBadC7] = .error .invalidData ∧
    processAndCreateEvents dateLib₀ 432000000 false stC6 [candC6fresh] =
      .ok ([⟨5, "", 259200000, 266400000, false, true, 1, "w1", []⟩],
        { artists := [⟨0, "Various", true⟩, ⟨1, "ghijkl", true⟩]
          events := [⟨5, "", 259200000, 266400000, false, true, 1, "w1", []⟩]
          nextId := 6 }) := by
  constructor
  · with_unfolding_all rfl
  · with_unfolding_all rfl

/-- Claim C7 as amended: failures in the per-candidate classification loop
are isolated — the loop unconditionally processes the tail whatever happened
to the head, and a throwing candidate only determines its own contribution —
and the persist phase isolates duplicate-key and other per-item errors; but
when a persist-time store validation error occurs the whole call throws
`invalidData` instead of returning a list.  When no transaction item hits a
validation error (and the Various artist exists), the call returns the
(possibly empty) list of created events — in particular an empty batch
returns an empty list rather than throwing. -/
theorem processAndCreateEvents_isolation
    (L : DateLib) (now : Int) (isDev : Bool) (st : Store)
    (various : Artist)
    (hvar : st.artists.find? (fun a => a.name == "Various") = some various) :
    (∀ (e : ScrapedEvent) (es : List ScrapedEvent) (st' : Store),
      runPhase1 L various st' (e :: es) =
        ((processOne L st' various e).1.toList ++
            (runPhase1 L various (processOne L st' various e).2 es).1,
          (runPhase1 L various (processOne L st' various e).2 es).2)) ∧
    (∀ (batch : List ScrapedEvent),
      (runPersist L now isDev (runPhase1 L various st batch).2
          (runPhase1 L various st batch).1).2.2 = false →
      processAndCreateEvents L now isDev st batch =
        .ok ((runPersist L now isDev (runPhase1 L various st batch).2
            (runPhase1 L various st batch).1).1,
          (runPersist L now isDev (runPhase1 L various st batch).2
            (runPhase1 L various st batch).1).2.1)) ∧
    processAndCreateEvents L now isDev st [] = .ok ([], st) := by
  refine ⟨?_, ?_, ?_⟩
  · intro e es st'
    rfl
  · intro batch hclean
    simp only [processAndCreateEvents, hvar, hclean]
    rfl
  · simp only [processAndCreateEvents, hvar, runPhase1, runPersist]
    rfl

/-- Witness for the amended C7: with the concrete store, a singleton good
batch persists cleanly and returns its created event, and the empty batch
returns the empty list. -/
theorem processAndCreateEvents_isolation_witness :
    processAndCreateEvents dateLib₀ 432000000 false stC6 [candC6fresh] =
      .ok ((runPersist dateLib₀ 432000000 false
          (runPhase1 dateLib₀ ⟨0, "Various", true⟩ stC6 [candC6fresh]).2
          (runPhase1 dateLib₀ ⟨0, "Various", true⟩ stC6 [candC6fresh]).1).1,
        (runPersist dateLib₀ 432000000 false
          (runPhase1 dateLib₀ ⟨0, "Various", true⟩ stC6 [candC6fresh]).2
          (runPhase1 dateLib₀ ⟨0, "Various", true⟩ stC6 [candC6fresh]).1).2.1) ∧
    processAndCreateEvents dateLib₀ 432000000 false stC6 [] =
      .ok ([], stC6) := by
  constructor
  · exact (processAndCreateEvents_isolation dateLib₀ 432000000 false stC6
      ⟨0, "Various", true⟩ (by with_unfolding_all rfl)).2.1 [candC6fresh]
      (by with_unfolding_all rfl)
  · exact (processAndCreateEvents_isolation dateLib₀ 432000000 false stC6
      ⟨0, "Various", true⟩ (by with_unfolding_all rfl)).2.2

/-! ### C8: schema-validation failures and the Various reroute -/

/-- Claim C8: a candidate failing schema validation is logged and skipped
(no transaction row, store untouched) — except that a candidate with a
truthy `eventName` and no usable (falsy) `artistName` is rerouted: it enters
the transaction data owned by the reserved Various artist, and, when its raw
dates parse, it is fresh and its slot is free, the pipeline persists it as
an event owned by the Various artist. -/
theorem processOne_schema_failure_routing
    (L : DateLib) (st : Store) (various : Artist) (e : ScrapedEvent)
    (hval : validateScrapedEvent e = false) :
    ((eventNameTruthy e && e.artist.isEmpty) = true →
      processOne L st various e =
        (some ⟨{ e with artistId := some various.id }, false⟩, st)) ∧
    ((eventNameTruthy e && e.artist.isEmpty) = false →
      processOne L st various e = (none, st)) ∧
    (∀ (now : Int) (isDev : Bool) (start : Int),
      st.artists.find? (fun a => a.name == "Various") = some various →
      (eventNameTruthy e && e.artist.isEmpty) = true →
      e.endDate = none →
      L.parseISO e.startDate = some start →
      ¬(start < now - threeDaysMs) →
      st.events.any (fun ev =>
        ev.venueId == e.venueId && ev.startDate == start) = false →
      processAndCreateEvents L now isDev st [e] =
        .ok ([⟨st.nextId, e.eventName.getD "", start, start + twoHoursMs,
            false, !isDev, various.id, e.venueId, []⟩],
          { st with
            events := st.events ++ [⟨st.nextId, e.eventName.getD "", start,
              start + twoHoursMs, false, !isDev, various.id, e.venueId, []⟩]
            nextId := st.nextId + 1 })) := by
  have hstep : ∀ (st' : Store), (eventNameTruthy e && e.artist.isEmpty) = true →
      processOne L st' various e =
        (some ⟨{ e with artistId := some various.id }, false⟩, st') := by
    intro st' hcond
    simp [processOne, tryProcessEvent, hval, hcond]
  refine ⟨hstep st, ?_, ?_⟩
  · intro hcond
    simp [processOne, tryProcessEvent, hval, hcond]
  · intro now isDev start hvar hcond hend hstart hfresh huniq
    simp only [processAndCreateEvents, hvar, runPhase1, hstep st hcond,
      Option.toList_some, List.singleton_append, List.nil_append,
      runPersist, persistItem, hend, hstart, hfresh, huniq]
    simp [hfresh, huniq]

/-- A schema-invalid candidate (empty artist) with a truthy event name and
a parseable, fresh start date, for the C8 witness. -/
def candC8various : ScrapedEvent :=
  { artist := ""
    eventName := some "Gala"
    startDate := "iso:00000000000259200000"
    endDate := none
    venueId := "w1"
    artistId := none
    unsure := none }

/-- Witness for C8: the schema-invalid candidate with an event name and an
empty artist is persisted as an event owned by the Various artist (id 0). -/
theorem processOne_schema_failure_routing_witness :
    processAndCreateEvents dateLib₀ 432000000 false stC6 [candC8various] =
      .ok ([⟨stC6.nextId, candC8various.eventName.getD "", 259200000,
          259200000 + twoHoursMs, false, !false, 0, candC8various.venueId, []⟩],
        { stC6 with
          events := stC6.events ++ [⟨stC6.nextId,
            candC8various.eventName.getD "", 259200000,
            259200000 + twoHoursMs, false, !false, 0,
            candC8various.venueId, []⟩]
          nextId := stC6.nextId + 1 }) :=
  (processOne_schema_failure_routing dateLib₀ stC6 ⟨0, "Various", true⟩
    candC8various (by with_unfolding_all rfl)).2.2 432000000 false 259200000
    (by with_unfolding_all rfl) (by with_unfolding_all rfl) rfl
    (by with_unfolding_all rfl) (by with_unfolding_all decide)
    (by with_unfolding_all rfl)
